import Mathlib

/-!
Verification of the sentinel-core PPO inference microservice
(src/services/ppo/app: config.py, model.py, schema.py, main.py).

Shallow embedding conventions:
* Python floats are modelled as exact rationals (ℚ).
* `time.perf_counter` is modelled as a clock function `Nat → ℚ` giving the
  value returned by the k-th call to the counter inside `decide`.
* Exceptions are modelled with `Except String`.
* The external stable-baselines3 policy is modelled at its boundary: a
  deterministic prediction function and a categorical distribution whose
  `probs` attribute is a softmax, i.e. strictly positive weights divided by
  their sum (the torch Categorical normalises exponentials of the logits).
-/

/-! ## config.py -/

/-- config.py: default artifact path (`PPO_MODEL_PATH`). -/
def MODEL_PATH : String := "/app/models/ppo_trading_v2"

/-- config.py: model version label (`PPO_MODEL_VERSION`). -/
def MODEL_VERSION : String := "ppo_trading_v2"

/-! ## model.py -/

/-- model.py `IDX_TO_ACTION`: the fixed index-to-label dict; Python dict
lookup raises `KeyError` outside its keys, modelled by `none`. -/
def IDX_TO_ACTION : Int → Option String
  | 0 => some "HOLD"
  | 1 => some "BUY"
  | 2 => some "SELL"
  | _ => none

/-- model.py `_pick_device`, parameterised by the configured `DEVICE`
string and by `torch.cuda.is_available()`. -/
def pick_device (DEVICE : String) (cuda_available : Bool) : String :=
  if DEVICE = "cpu" then "cpu"
  else if DEVICE = "cuda" then "cuda"
  else if cuda_available then "cuda" else "cpu"

/-- Boundary model of the categorical distribution obtained through
`model.policy.get_distribution(...).distribution`: its `probs` tensor is
the softmax of the 3 action logits, i.e. strictly positive weights (the
exponentials of the logits) normalised by their sum. -/
structure Categorical where
  w0 : ℚ
  w1 : ℚ
  w2 : ℚ
  w0_pos : 0 < w0
  w1_pos : 0 < w1
  w2_pos : 0 < w2

/-- The `probs` attribute of the categorical distribution: each weight
divided by the total weight. -/
def Categorical.probs (d : Categorical) : ℚ × ℚ × ℚ :=
  (d.w0 / (d.w0 + d.w1 + d.w2),
   d.w1 / (d.w0 + d.w1 + d.w2),
   d.w2 / (d.w0 + d.w1 + d.w2))

/-- Boundary model of the loaded stable-baselines3 PPO artifact:
`predict(obs, deterministic=True)` is a function of the observation, and
`policy.get_distribution` yields the categorical distribution. -/
structure PPOModel where
  predict_det : List ℚ → Int
  get_distribution : List ℚ → Categorical
  device : String

/-- model.py `PPOInference`: resolved device plus loaded model. -/
structure PPOInference where
  device : String
  model : PPOModel

/-- model.py `PPOInference.__init__`: picks the device, then loads the
artifact from `MODEL_PATH`; a load failure propagates (fail-fast), so
construction yields `Except`. `load` is the boundary model of `PPO.load`
as a function of path and device. -/
def PPOInference.init (load : String → String → Except String PPOModel)
    (DEVICE : String) (cuda_available : Bool) : Except String PPOInference :=
  let dev := pick_device DEVICE cuda_available
  match load MODEL_PATH dev with
  | .error e => .error e
  | .ok m => .ok ⟨dev, m⟩

/-- model.py `PPOInference.version`. -/
def PPOInference.version (_ : PPOInference) : String := MODEL_VERSION

/-- model.py `PPOInference.decide`. Returns
`(action_str, confidence, probs_dict, action_idx, latency_ms)` or the
message of the raised exception. `clock k` is the value returned by the
k-th call to `time.perf_counter` made inside this call. -/
def PPOInference.decide (inf : PPOInference) (clock : Nat → ℚ) (obs_7 : List ℚ) :
    Except String (String × ℚ × List (String × ℚ) × Int × ℚ) :=
  if obs_7.length ≠ 7 then
    .error ("Expected obs shape (7,), got (" ++ toString obs_7.length ++ ",)")
  else
    let start := clock 0
    let action_idx : Int := inf.model.predict_det obs_7
    let d := inf.model.get_distribution obs_7
    let p := d.probs
    let probs_dict : List (String × ℚ) :=
      [("HOLD", p.1), ("BUY", p.2.1), ("SELL", p.2.2)]
    match IDX_TO_ACTION action_idx with
    | none => .error ("KeyError: " ++ toString action_idx)
    | some label =>
      match probs_dict.lookup label with
      | none => .error ("KeyError: " ++ label)
      | some confidence =>
        let latency_ms := (clock 1 - start) * 1000
        .ok (label, confidence, probs_dict, action_idx, latency_ms)

/-! ## schema.py -/

/-- The raw payload of a decide request before pydantic validation: the
seven declared fields, with `position` still an arbitrary JSON number. -/
structure RawDecideRequest where
  return_1 : ℚ
  return_5 : ℚ
  ema_spread : ℚ
  ema_9_slope : ℚ
  ema_21_slope : ℚ
  position : ℚ
  unrealized_pnl : ℚ

/-- schema.py `DecideRequest` after successful validation: `position` is
an integer in [0, 1]. -/
structure DecideRequest where
  return_1 : ℚ
  return_5 : ℚ
  ema_spread : ℚ
  ema_9_slope : ℚ
  ema_21_slope : ℚ
  position : Int
  unrealized_pnl : ℚ

/-- Boundary model of pydantic validation of `DecideRequest`
(schema.py): the five float fields and `unrealized_pnl` are unconstrained;
`position` is declared `int = Field(..., ge=0, le=1)`, so a non-integral
number fails integer coercion and an integer outside [0, 1] fails the
declared range constraints, each with an error naming the field. -/
def validate_request (raw : RawDecideRequest) : Except String DecideRequest :=
  if raw.position.den ≠ 1 then
    .error "position: Input should be a valid integer"
  else if raw.position.num < 0 then
    .error "position: Input should be greater than or equal to 0"
  else if 1 < raw.position.num then
    .error "position: Input should be less than or equal to 1"
  else
    .ok ⟨raw.return_1, raw.return_5, raw.ema_spread, raw.ema_9_slope,
         raw.ema_21_slope, raw.position.num, raw.unrealized_pnl⟩

/-! ## main.py -/

/-- The `obs` echo embedded in the response metadata (main.py). -/
structure ObsEcho where
  return_1 : ℚ
  return_5 : ℚ
  ema_spread : ℚ
  ema_9_slope : ℚ
  ema_21_slope : ℚ
  position : Int
  unrealized_pnl : ℚ

/-- The `meta` object of a decide response (main.py). -/
structure DecideMeta where
  model_version : String
  probs : List (String × ℚ)
  action_idx : Int
  latency_ms : ℚ
  obs : ObsEcho

/-- schema.py `DecideResponse`. -/
structure DecideResponse where
  action : String
  confidence : ℚ
  agent : String
  meta : DecideMeta

/-- The HTTP outcome of the decide endpoint: a successful response, or an
error status with a detail string (pydantic validation failures become
422, the `HTTPException` of the handler becomes 400). -/
inductive HttpResult where
  | ok (resp : DecideResponse)
  | clientError (status : Nat) (detail : String)

/-- main.py: the `np.array([...])` built from the validated request, in
source order, with `position` cast to float. -/
def build_obs (req : DecideRequest) : List ℚ :=
  [req.return_1, req.return_5, req.ema_spread, req.ema_9_slope,
   req.ema_21_slope, (req.position : ℚ), req.unrealized_pnl]

/-- main.py `decide` endpoint: FastAPI validates the payload against
`DecideRequest` (failure yields a 422 client error before the handler
body runs); the handler builds the observation vector, calls
`ppo.decide`, and converts any exception into `HTTPException(400, str(e))`. -/
def decide_endpoint (inf : PPOInference) (clock : Nat → ℚ)
    (raw : RawDecideRequest) : HttpResult :=
  match validate_request raw with
  | .error msg => .clientError 422 msg
  | .ok req =>
    match inf.decide clock (build_obs req) with
    | .error e => .clientError 400 e
    | .ok (action, confidence, probs, action_idx, latency_ms) =>
      .ok (DecideResponse.mk action confidence "ppo"
        (DecideMeta.mk inf.version probs action_idx latency_ms
          (ObsEcho.mk req.return_1 req.return_5 req.ema_spread
            req.ema_9_slope req.ema_21_slope req.position
            req.unrealized_pnl)))

/-- main.py module initialisation: `ppo = PPOInference()` runs at import
time; if the load raises, the module fails to import and no endpoint is
ever registered, otherwise the app serves with the constructed adapter. -/
inductive ServiceState where
  | importFailed (err : String)
  | running (ppo : PPOInference)

/-- Starting the service: construct the module-level `PPOInference`. -/
def start_service (load : String → String → Except String PPOModel)
    (DEVICE : String) (cuda_available : Bool) : ServiceState :=
  match PPOInference.init load DEVICE cuda_available with
  | .error e => .importFailed e
  | .ok inf => .running inf

/-- Payload of the health endpoint (main.py `health`). -/
structure HealthResponse where
  status : String
  model_version : String
  device : String

/-- main.py `health` endpoint: only reachable when the module imported
(`none` when the service never came up); when running it reports
status "ok" with the version and resolved device. -/
def health (st : ServiceState) : Option HealthResponse :=
  match st with
  | .importFailed _ => none
  | .running inf => some (HealthResponse.mk "ok" inf.version inf.device)

/-! ## Concrete fixtures used by the witnesses -/

/-- Decidable equality on `Except`, used to evaluate the embedded
operations on concrete inputs. -/
instance {e a : Type} [DecidableEq e] [DecidableEq a] :
    DecidableEq (Except e a) := fun x y =>
  match x, y with
  | .error u, .error v =>
    if h : u = v then .isTrue (by rw [h]) else .isFalse (by simp [h])
  | .error _, .ok _ => .isFalse (by simp)
  | .ok _, .error _ => .isFalse (by simp)
  | .ok u, .ok v =>
    if h : u = v then .isTrue (by rw [h]) else .isFalse (by simp [h])

/-- A concrete categorical distribution with weights 1, 1, 2
(probs 1/4, 1/4, 1/2). -/
def testCat : Categorical :=
  ⟨1, 1, 2, by norm_num, by norm_num, by norm_num⟩

/-- A concrete loaded policy that deterministically predicts index 0. -/
def testModel : PPOModel :=
  ⟨fun _ => 0, fun _ => testCat, "cpu"⟩

/-- A concrete inference adapter around `testModel`. -/
def testInf : PPOInference := ⟨"cpu", testModel⟩

/-- A concrete strictly increasing perf counter. -/
def testClock : Nat → ℚ := fun k => k

/-- A concrete valid 7-entry observation. -/
def testObs : List ℚ := [1, 2, 3, 4, 5, 0, 7]

/-! ## Claims -/

/-- C1: for every decision `decide` returns, the confidence equals exactly
the probability the returned mapping assigns to the selected action:
looking the returned action label up in the returned probability mapping
yields the returned confidence. -/
theorem C1_confidence_eq_probs_action
    (inf : PPOInference) (clock : Nat → ℚ) (obs : List ℚ)
    (a : String) (c : ℚ) (pd : List (String × ℚ)) (i : Int) (l : ℚ)
    (h : inf.decide clock obs = .ok (a, c, pd, i, l)) :
    pd.lookup a = some c := by
  simp only [PPOInference.decide] at h
  split at h
  · exact absurd h (by simp)
  · split at h
    · exact absurd h (by simp)
    · split at h
      · exact absurd h (by simp)
      · rename_i label hidx confidence hlook
        simp only [Except.ok.injEq, Prod.mk.injEq] at h
        obtain ⟨ha, hc, hpd, hi, hl⟩ := h
        subst ha hc hpd
        exact hlook

/-- C1 witness at the concrete fixture. -/
theorem C1_witness :
    testInf.decide testClock testObs =
      .ok ("HOLD", 1/4, [("HOLD", 1/4), ("BUY", 1/4), ("SELL", 1/2)], 0, 1000) ∧
    [("HOLD", (1:ℚ)/4), ("BUY", 1/4), ("SELL", 1/2)].lookup "HOLD" = some (1/4) := by
  have heval : testInf.decide testClock testObs =
      .ok ("HOLD", 1/4, [("HOLD", 1/4), ("BUY", 1/4), ("SELL", 1/2)], 0, 1000) := by
    simp [PPOInference.decide, testInf, testModel, testCat, testClock, testObs,
      Categorical.probs, IDX_TO_ACTION, List.lookup]
    norm_num
  exact ⟨heval,
    C1_confidence_eq_probs_action testInf testClock testObs _ _ _ _ _ heval⟩

/-- C2: decide is deterministic: with the same loaded model, two calls on
the identical 7-element feature vector return the identical action label
and action index (regardless of when the clock is read), since the policy
is evaluated with `deterministic=True`. -/
theorem C2_decide_deterministic
    (inf : PPOInference) (clock₁ clock₂ : Nat → ℚ) (obs : List ℚ) :
    (inf.decide clock₁ obs).map (fun out => (out.1, out.2.2.2.1)) =
    (inf.decide clock₂ obs).map (fun out => (out.1, out.2.2.2.1)) := by
  simp only [PPOInference.decide]
  split
  · rfl
  · split
    · rfl
    · split <;> rfl

/-- C3: an observation whose shape is not (7,) makes decide fail with the
shape error naming the expected and actual shapes; the outcome is the
same for every loaded model and every clock, so no policy evaluation (and
no truncation or padding) takes place. -/
theorem C3_shape_error
    (inf : PPOInference) (clock : Nat → ℚ) (obs : List ℚ)
    (h : obs.length ≠ 7) :
    inf.decide clock obs =
      .error ("Expected obs shape (7,), got (" ++ toString obs.length ++ ",)") ∧
    ∀ (inf₂ : PPOInference) (clock₂ : Nat → ℚ),
      inf₂.decide clock₂ obs = inf.decide clock obs := by
  refine ⟨?_, ?_⟩
  · simp [PPOInference.decide, h]
  · intro inf₂ clock₂
    simp [PPOInference.decide, h]

/-- C3 witness: a 3-entry vector is rejected with the shape error. -/
theorem C3_witness :
    ([0, 0, 0] : List ℚ).length ≠ 7 ∧
    testInf.decide testClock [0, 0, 0] =
      .error ("Expected obs shape (7,), got ("
        ++ toString ([0, 0, 0] : List ℚ).length ++ ",)") := by
  have h : ([0, 0, 0] : List ℚ).length ≠ 7 := by simp
  exact ⟨h, (C3_shape_error testInf testClock [0, 0, 0] h).1⟩

/-- Successful lookups in the index-to-label dict are exactly the three
listed pairs. -/
theorem IDX_TO_ACTION_eq_some (i : Int) (s : String)
    (h : IDX_TO_ACTION i = some s) :
    (i = 0 ∧ s = "HOLD") ∨ (i = 1 ∧ s = "BUY") ∨ (i = 2 ∧ s = "SELL") := by
  unfold IDX_TO_ACTION at h
  split at h <;> simp_all

/-- A concrete loaded policy whose deterministic prediction is the
out-of-range index 5. -/
def testModelBad : PPOModel := ⟨fun _ => 5, fun _ => testCat, "cpu"⟩

/-- A concrete inference adapter around `testModelBad`. -/
def testInfBad : PPOInference := ⟨"cpu", testModelBad⟩

/-- C10: whenever decide returns a result, the action index is one of 0,
1, 2 and the label is its image under the fixed table (hence one of HOLD,
BUY, SELL); and when the predicted index falls outside the table, the
dict lookup fails with a KeyError, so no out-of-range decision is ever
returned. -/
theorem C10_action_range
    (inf : PPOInference) (clock : Nat → ℚ) (obs : List ℚ) :
    (∀ a c pd i l, inf.decide clock obs = .ok (a, c, pd, i, l) →
      (i = 0 ∨ i = 1 ∨ i = 2) ∧ IDX_TO_ACTION i = some a ∧
        (a = "HOLD" ∨ a = "BUY" ∨ a = "SELL")) ∧
    (obs.length = 7 → IDX_TO_ACTION (inf.model.predict_det obs) = none →
      inf.decide clock obs =
        .error ("KeyError: " ++ toString (inf.model.predict_det obs))) := by
  constructor
  · intro a c pd i l h
    simp only [PPOInference.decide] at h
    split at h
    · exact absurd h (by simp)
    · split at h
      · exact absurd h (by simp)
      · split at h
        · exact absurd h (by simp)
        · rename_i oS label hidx oQ confidence hlook
          simp only [Except.ok.injEq, Prod.mk.injEq] at h
          obtain ⟨ha, hc, hpd, hi, hl⟩ := h
          subst ha hi
          rcases IDX_TO_ACTION_eq_some _ _ hidx with ⟨h0, hs⟩ | ⟨h0, hs⟩ | ⟨h0, hs⟩ <;>
            subst hs <;> rw [h0] <;> simp [IDX_TO_ACTION]
  · intro h7 hnone
    simp [PPOInference.decide, h7, hnone]

/-- C10 witness: at the concrete fixture the returned index 0 carries the
label HOLD; at the fixture predicting index 5 the lookup fails with a
KeyError. -/
theorem C10_witness :
    (((0 : Int) = 0 ∨ (0 : Int) = 1 ∨ (0 : Int) = 2) ∧
      IDX_TO_ACTION 0 = some "HOLD" ∧
      ("HOLD" = "HOLD" ∨ "HOLD" = "BUY" ∨ "HOLD" = "SELL")) ∧
    testInfBad.decide testClock testObs =
      .error ("KeyError: " ++ toString (testInfBad.model.predict_det testObs)) := by
  have heval : testInf.decide testClock testObs =
      .ok ("HOLD", 1/4, [("HOLD", 1/4), ("BUY", 1/4), ("SELL", 1/2)], 0, 1000) := by
    simp [PPOInference.decide, testInf, testModel, testCat, testClock, testObs,
      Categorical.probs, IDX_TO_ACTION, List.lookup]
    norm_num
  constructor
  · exact (C10_action_range testInf testClock testObs).1 "HOLD" (1/4)
      [("HOLD", 1/4), ("BUY", 1/4), ("SELL", 1/2)] 0 1000 heval
  · exact (C10_action_range testInfBad testClock testObs).2 (by simp [testObs])
      (by simp [testInfBad, testModelBad, IDX_TO_ACTION])

/-- The three entries of the `probs` attribute are nonnegative, at most
one, and sum to exactly one, because they are positive weights divided by
their total. -/
theorem Categorical.probs_spec (d : Categorical) :
    (0 ≤ d.probs.1 ∧ d.probs.1 ≤ 1) ∧
    (0 ≤ d.probs.2.1 ∧ d.probs.2.1 ≤ 1) ∧
    (0 ≤ d.probs.2.2 ∧ d.probs.2.2 ≤ 1) ∧
    d.probs.1 + d.probs.2.1 + d.probs.2.2 = 1 := by
  obtain ⟨w0, w1, w2, h0, h1, h2⟩ := d
  simp only [Categorical.probs]
  have hs : 0 < w0 + w1 + w2 := by linarith
  have hs0 : w0 + w1 + w2 ≠ 0 := ne_of_gt hs
  refine ⟨⟨?_, ?_⟩, ⟨?_, ?_⟩, ⟨?_, ?_⟩, ?_⟩
  · exact div_nonneg h0.le hs.le
  · rw [div_le_one hs]; linarith
  · exact div_nonneg h1.le hs.le
  · rw [div_le_one hs]; linarith
  · exact div_nonneg h2.le hs.le
  · rw [div_le_one hs]; linarith
  · field_simp

/-- C6: every returned probability mapping has exactly the keys HOLD,
BUY, SELL in this order, each value lies in [0, 1], and the values sum to
within 1/1000 of 1 (in the exact-rational model the sum is exactly 1). -/
theorem C6_probs_wellformed
    (inf : PPOInference) (clock : Nat → ℚ) (obs : List ℚ)
    (a : String) (c : ℚ) (pd : List (String × ℚ)) (i : Int) (l : ℚ)
    (h : inf.decide clock obs = .ok (a, c, pd, i, l)) :
    pd.map Prod.fst = ["HOLD", "BUY", "SELL"] ∧
    (∀ x ∈ pd, 0 ≤ x.2 ∧ x.2 ≤ 1) ∧
    |(pd.map Prod.snd).sum - 1| ≤ 1 / 1000 := by
  simp only [PPOInference.decide] at h
  split at h
  · exact absurd h (by simp)
  · split at h
    · exact absurd h (by simp)
    · split at h
      · exact absurd h (by simp)
      · rename_i oS label hidx oQ confidence hlook
        simp only [Except.ok.injEq, Prod.mk.injEq] at h
        obtain ⟨ha, hc, hpd, hi, hl⟩ := h
        subst hpd
        obtain ⟨⟨g0, g0le⟩, ⟨g1, g1le⟩, ⟨g2, g2le⟩, gsum⟩ :=
          (inf.model.get_distribution obs).probs_spec
        refine ⟨by simp, ?_, ?_⟩
        · intro x hx
          simp only [List.mem_cons, List.not_mem_nil, or_false] at hx
          rcases hx with rfl | rfl | rfl
          · exact ⟨g0, g0le⟩
          · exact ⟨g1, g1le⟩
          · exact ⟨g2, g2le⟩
        · simp only [List.map_cons, List.map_nil, List.sum_cons, List.sum_nil]
          have hsum : (inf.model.get_distribution obs).probs.1 +
              ((inf.model.get_distribution obs).probs.2.1 +
                ((inf.model.get_distribution obs).probs.2.2 + 0)) = 1 := by
            rw [← gsum]; ring
          rw [hsum]
          norm_num

/-- C6 witness: the concrete fixture returns the mapping with keys HOLD,
BUY, SELL, values 1/4, 1/4, 1/2 in [0, 1], summing to 1. -/
theorem C6_witness :
    ([("HOLD", (1:ℚ)/4), ("BUY", 1/4), ("SELL", 1/2)].map Prod.fst =
      ["HOLD", "BUY", "SELL"]) ∧
    (∀ x ∈ [("HOLD", (1:ℚ)/4), ("BUY", 1/4), ("SELL", 1/2)], 0 ≤ x.2 ∧ x.2 ≤ 1) ∧
    |(([("HOLD", (1:ℚ)/4), ("BUY", 1/4), ("SELL", 1/2)].map Prod.snd).sum) - 1|
      ≤ 1 / 1000 := by
  have heval : testInf.decide testClock testObs =
      .ok ("HOLD", 1/4, [("HOLD", 1/4), ("BUY", 1/4), ("SELL", 1/2)], 0, 1000) := by
    simp [PPOInference.decide, testInf, testModel, testCat, testClock, testObs,
      Categorical.probs, IDX_TO_ACTION, List.lookup]
    norm_num
  exact C6_probs_wellformed testInf testClock testObs _ _ _ _ _ heval

/-- C9: for every successful decide call made while the perf counter is
strictly increasing, the reported latency is positive and equals exactly
the elapsed time between the two counter reads surrounding policy
evaluation; and on a shape-validation failure the outcome does not depend
on the clock at all, so the measurement starts only after validation. -/
theorem C9_latency
    (inf : PPOInference) (clock : Nat → ℚ) (obs : List ℚ) :
    (∀ a c pd i l, clock 0 < clock 1 →
      inf.decide clock obs = .ok (a, c, pd, i, l) →
        0 < l ∧ l = (clock 1 - clock 0) * 1000) ∧
    (obs.length ≠ 7 →
      ∀ clock₂ : Nat → ℚ, inf.decide clock₂ obs = inf.decide clock obs) := by
  constructor
  · intro a c pd i l hclock h
    simp only [PPOInference.decide] at h
    split at h
    · exact absurd h (by simp)
    · split at h
      · exact absurd h (by simp)
      · split at h
        · exact absurd h (by simp)
        · rename_i oS label hidx oQ confidence hlook
          simp only [Except.ok.injEq, Prod.mk.injEq] at h
          obtain ⟨ha, hc, hpd, hi, hl⟩ := h
          subst hl
          constructor
          · have hpos : 0 < clock 1 - clock 0 := by linarith
            have := mul_pos hpos (by norm_num : (0:ℚ) < 1000)
            linarith
          · rfl
  · intro hshape clock₂
    simp [PPOInference.decide, hshape]

/-- C9 witness: at the concrete fixture the latency is 1000 ms, positive,
and exactly the clock difference; and on a bad-shape input two different
clocks give the same outcome. -/
theorem C9_witness :
    ((0:ℚ) < 1000 ∧ (1000:ℚ) = (testClock 1 - testClock 0) * 1000) ∧
    testInf.decide (fun k => (k : ℚ) + 5) [0, 0, 0] =
      testInf.decide testClock [0, 0, 0] := by
  have heval : testInf.decide testClock testObs =
      .ok ("HOLD", 1/4, [("HOLD", 1/4), ("BUY", 1/4), ("SELL", 1/2)], 0, 1000) := by
    simp [PPOInference.decide, testInf, testModel, testCat, testClock, testObs,
      Categorical.probs, IDX_TO_ACTION, List.lookup]
    norm_num
  constructor
  · exact (C9_latency testInf testClock testObs).1 "HOLD" (1/4)
      [("HOLD", 1/4), ("BUY", 1/4), ("SELL", 1/2)] 0 1000
      (by norm_num [testClock]) heval
  · exact (C9_latency testInf testClock [0, 0, 0]).2 (by simp) (fun k => (k : ℚ) + 5)

/-- C7: the health endpoint can only ever answer once the model has been
successfully loaded: module construction is fail-fast, so whenever health
returns anything the load succeeded (there is no reachable state in which
health answers — let alone "ok" — before a successful load), and a failed
model load leaves the health endpoint unreachable, so the service never
advertises itself as healthy. -/
theorem C7_health_requires_loaded_model
    (load : String → String → Except String PPOModel)
    (DEVICE : String) (cuda_available : Bool) :
    (∀ r, health (start_service load DEVICE cuda_available) = some r →
      ∃ m, load MODEL_PATH (pick_device DEVICE cuda_available) = .ok m) ∧
    (∀ e, load MODEL_PATH (pick_device DEVICE cuda_available) = .error e →
      health (start_service load DEVICE cuda_available) = none) := by
  constructor
  · intro r hr
    rcases hload : load MODEL_PATH (pick_device DEVICE cuda_available) with e | m
    · rw [start_service, PPOInference.init] at hr
      simp only [hload] at hr
      simp [health] at hr
    · exact ⟨m, rfl⟩
  · intro e he
    rw [start_service, PPOInference.init]
    simp only [he]
    simp [health]

/-- C7 witness: with a load that fails, health is unreachable; with a
load that succeeds, the theorem applies at the returned response. -/
theorem C7_witness :
    health (start_service (fun _ _ => .error "artifact missing") "auto" false)
      = none ∧
    ∃ m, (fun (_ _ : String) => (Except.ok testModel : Except String PPOModel))
      MODEL_PATH (pick_device "cpu" false) = .ok m := by
  constructor
  · exact (C7_health_requires_loaded_model
      (fun _ _ => .error "artifact missing") "auto" false).2 "artifact missing" rfl
  · exact (C7_health_requires_loaded_model
      (fun _ _ => (Except.ok testModel : Except String PPOModel)) "cpu" false).1
      (HealthResponse.mk "ok" MODEL_VERSION "cpu") (by rfl)

/-- C4: a request whose position is an integer outside [0, 1] or a
non-integral number fails validation with a client error naming the
position field and never reaches the inference adapter (the endpoint
answers 422 whatever model is loaded); a position equal to 0 or 1 passes
validation. -/
theorem C4_position_validation (raw : RawDecideRequest) :
    ((raw.position = 0 ∨ raw.position = 1) →
      ∃ req, validate_request raw = .ok req ∧ (req.position : ℚ) = raw.position) ∧
    (¬(raw.position = 0 ∨ raw.position = 1) →
      ∃ detail, validate_request raw = .error detail ∧
        (∃ rest, detail = "position: " ++ rest) ∧
        ∀ (inf : PPOInference) (clock : Nat → ℚ),
          decide_endpoint inf clock raw = .clientError 422 detail) := by
  constructor
  · intro h
    have hden : raw.position.den = 1 := by
      rcases h with h | h <;> rw [h] <;> rfl
    have hneg : ¬ raw.position.num < 0 := by
      rcases h with h | h <;> rw [h] <;> decide
    have hgt : ¬ 1 < raw.position.num := by
      rcases h with h | h <;> rw [h] <;> decide
    refine ⟨⟨raw.return_1, raw.return_5, raw.ema_spread, raw.ema_9_slope,
      raw.ema_21_slope, raw.position.num, raw.unrealized_pnl⟩, ?_, ?_⟩
    · simp [validate_request, hden, hneg, hgt]
    · exact (Rat.den_eq_one_iff raw.position).mp hden
  · intro h
    by_cases hden : raw.position.den = 1
    · have hq : (raw.position.num : ℚ) = raw.position :=
        (Rat.den_eq_one_iff raw.position).mp hden
      by_cases hneg : raw.position.num < 0
      · refine ⟨"position: Input should be greater than or equal to 0",
          ?_, ⟨"Input should be greater than or equal to 0", rfl⟩, ?_⟩
        · simp [validate_request, hden, hneg]
        · intro inf clock
          simp [decide_endpoint, validate_request, hden, hneg]
      · have hgt : 1 < raw.position.num := by
          by_contra hgt
          rcases (by omega : raw.position.num = 0 ∨ raw.position.num = 1) with h0 | h0 <;>
            rw [h0] at hq <;> simp_all
        refine ⟨"position: Input should be less than or equal to 1",
          ?_, ⟨"Input should be less than or equal to 1", rfl⟩, ?_⟩
        · simp [validate_request, hden, hneg, hgt]
        · intro inf clock
          simp [decide_endpoint, validate_request, hden, hneg, hgt]
    · refine ⟨"position: Input should be a valid integer",
        ?_, ⟨"Input should be a valid integer", rfl⟩, ?_⟩
      · simp [validate_request, hden]
      · intro inf clock
        simp [decide_endpoint, validate_request, hden]

/-- The end-to-end example request of the spec, position 0. -/
def testRaw : RawDecideRequest :=
  ⟨1/100, -1/50, 3/1000, 1/1000, -1/2000, 0, 0⟩

/-- The same request with the out-of-range position 2. -/
def testRawPos2 : RawDecideRequest :=
  ⟨1/100, -1/50, 3/1000, 1/1000, -1/2000, 2, 0⟩

/-- C4 witness: position 0 validates; position 2 is rejected with a 422
naming the position field, whatever model is loaded. -/
theorem C4_witness :
    (∃ req, validate_request testRaw = .ok req ∧
      (req.position : ℚ) = testRaw.position) ∧
    (∃ detail, validate_request testRawPos2 = .error detail ∧
      (∃ rest, detail = "position: " ++ rest) ∧
      ∀ (inf : PPOInference) (clock : Nat → ℚ),
        decide_endpoint inf clock testRawPos2 = .clientError 422 detail) := by
  constructor
  · exact (C4_position_validation testRaw).1 (Or.inl (by norm_num [testRaw]))
  · refine (C4_position_validation testRawPos2).2 ?_
    simp only [testRawPos2]
    norm_num

/-- C5: for every payload that passes validation, the feature vector the
endpoint hands to the inference adapter has exactly 7 entries, in the
fixed order return_1, return_5, ema_spread, ema_9_slope, ema_21_slope,
position cast to float, unrealized_pnl. -/
theorem C5_feature_vector_order (raw : RawDecideRequest) (req : DecideRequest)
    (h : validate_request raw = .ok req) :
    build_obs req =
      [raw.return_1, raw.return_5, raw.ema_spread, raw.ema_9_slope,
       raw.ema_21_slope, raw.position, raw.unrealized_pnl] ∧
    (build_obs req).length = 7 := by
  simp only [validate_request] at h
  split at h
  · exact absurd h (by simp)
  · split at h
    · exact absurd h (by simp)
    · split at h
      · exact absurd h (by simp)
      · rename_i hden hneg hgt
        have hden1 : raw.position.den = 1 := not_not.mp hden
        have hq : (raw.position.num : ℚ) = raw.position :=
          (Rat.den_eq_one_iff raw.position).mp hden1
        simp only [Except.ok.injEq] at h
        subst h
        constructor
        · simp [build_obs, hq]
        · simp [build_obs]

/-- C5 witness: the example request of the spec validates and produces the
7-entry vector in the documented order. -/
theorem C5_witness :
    build_obs ⟨1/100, -1/50, 3/1000, 1/1000, -1/2000, 0, 0⟩ =
      [testRaw.return_1, testRaw.return_5, testRaw.ema_spread,
       testRaw.ema_9_slope, testRaw.ema_21_slope, testRaw.position,
       testRaw.unrealized_pnl] ∧
    (build_obs ⟨1/100, -1/50, 3/1000, 1/1000, -1/2000, 0, 0⟩).length = 7 := by
  refine C5_feature_vector_order testRaw _ ?_
  simp [validate_request, testRaw]

/-- A string with a nonempty left part is nonempty. -/
theorem append_ne_empty_left (s t : String) (hs : s ≠ "") : s ++ t ≠ "" := by
  intro hc
  apply hs
  apply String.ext
  have hd := congrArg String.data hc
  rw [String.data_append] at hd
  have h0 : s.data ++ t.data = ([] : List Char) := by simpa using hd
  simpa using (List.append_eq_nil.mp h0).1

/-- Every error message produced by decide is nonempty. -/
theorem decide_error_ne_empty
    (inf : PPOInference) (clock : Nat → ℚ) (obs : List ℚ) (e : String)
    (h : inf.decide clock obs = .error e) : e ≠ "" := by
  simp only [PPOInference.decide] at h
  split at h
  · simp only [Except.error.injEq] at h
    subst h
    rw [String.append_assoc]
    exact append_ne_empty_left _ _ (by decide)
  · split at h
    · simp only [Except.error.injEq] at h
      subst h
      exact append_ne_empty_left _ _ (by decide)
    · split at h
      · simp only [Except.error.injEq] at h
        subst h
        exact append_ne_empty_left _ _ (by decide)
      · exact absurd h (by simp)

/-- Every error message produced by validation is nonempty. -/
theorem validate_error_ne_empty (raw : RawDecideRequest) (msg : String)
    (h : validate_request raw = .error msg) : msg ≠ "" := by
  simp only [validate_request] at h
  split at h
  · simp only [Except.error.injEq] at h
    subst h
    decide
  · split at h
    · simp only [Except.error.injEq] at h
      subst h
      decide
    · split at h
      · simp only [Except.error.injEq] at h
        subst h
        decide
      · exact absurd h (by simp)

/-- C8: every failure on the decide path is converted at the request
boundary into a client-error status (422 for validation, 400 for anything
the handler catches) carrying a nonempty detail message; and a successful
response only arises when both validation and policy evaluation
succeeded, with the response action equal to the decided action — so
an error can never masquerade as a genuine HOLD decision. -/
theorem C8_error_boundary
    (inf : PPOInference) (clock : Nat → ℚ) (raw : RawDecideRequest) :
    (∀ msg, validate_request raw = .error msg →
      decide_endpoint inf clock raw = .clientError 422 msg ∧ msg ≠ "") ∧
    (∀ req e, validate_request raw = .ok req →
      inf.decide clock (build_obs req) = .error e →
      decide_endpoint inf clock raw = .clientError 400 e ∧ e ≠ "") ∧
    (∀ resp, decide_endpoint inf clock raw = .ok resp →
      ∃ req out, validate_request raw = .ok req ∧
        inf.decide clock (build_obs req) = .ok out ∧ resp.action = out.1) := by
  refine ⟨?_, ?_, ?_⟩
  · intro msg hmsg
    exact ⟨by simp [decide_endpoint, hmsg], validate_error_ne_empty raw msg hmsg⟩
  · intro req e hok herr
    exact ⟨by simp [decide_endpoint, hok, herr],
      decide_error_ne_empty inf clock (build_obs req) e herr⟩
  · intro resp h
    simp only [decide_endpoint] at h
    split at h
    · exact absurd h (by simp)
    · rename_i req hv
      split at h
      · exact absurd h (by simp)
      · rename_i a c pd i l hd
        simp only [HttpResult.ok.injEq] at h
        subst h
        exact ⟨req, (a, c, pd, i, l), hv, hd, rfl⟩

/-- C8 witness: with the fixture predicting the out-of-range index 5, the
endpoint converts the KeyError into a 400 with a nonempty detail. -/
theorem C8_witness :
    decide_endpoint testInfBad testClock testRaw =
      .clientError 400 ("KeyError: " ++ toString (5 : Int)) ∧
    ("KeyError: " ++ toString (5 : Int)) ≠ "" := by
  have hok : validate_request testRaw =
      .ok ⟨1/100, -1/50, 3/1000, 1/1000, -1/2000, 0, 0⟩ := by
    simp [validate_request, testRaw]
  have herr : testInfBad.decide testClock
      (build_obs ⟨1/100, -1/50, 3/1000, 1/1000, -1/2000, 0, 0⟩) =
      .error ("KeyError: " ++ toString (5 : Int)) := by
    simp [PPOInference.decide, testInfBad, testModelBad, build_obs, IDX_TO_ACTION]
  exact (C8_error_boundary testInfBad testClock testRaw).2.1
    ⟨1/100, -1/50, 3/1000, 1/1000, -1/2000, 0, 0⟩
    ("KeyError: " ++ toString (5 : Int)) hok herr
